import Mathlib

/-!
# Verification of the untether Claude runner

Shallow embedding of `src/untether/runners/claude.py`: the event translator
(`translate_claude_event`), the control-response machinery
(`write_control_response`, `_drain_auto_approve`, `_drain_auto_deny`,
`send_claude_control_response`), the per-line event loop
(`_iter_jsonl_events`), the run epilogue (`process_error_events`,
`stream_end_events`, the tail of `run_impl`) and the discuss-cooldown
functions (`set_discuss_cooldown`, `check_discuss_cooldown`,
`clear_discuss_cooldown`).

Python dicts over string keys are modelled as association lists
(`List (String × α)`, first binding wins), python sets as duplicate-free
`List String` manipulated through membership-guarded insert and filter.
Wall-clock time is threaded explicitly as an `Int` number of seconds.
Logging calls are dropped throughout; they do not affect state or output.
-/

namespace Untether

/-- Minimal JSON value universe: enough for the control-response payloads
the runner writes to stdin (`{"behavior": ..., "updatedInput": ...}` etc.).
Objects are field chains: `fld k v rest` prepends field `k = v` to the
object `rest`; `emp` is the empty object. -/
inductive Json where
  | str : String → Json
  | bool : Bool → Json
  | emp : Json
  | fld : String → Json → Json → Json
  deriving DecidableEq, Repr

/-- Build an object from a field list. -/
def Json.objOf : List (String × Json) → Json
  | [] => .emp
  | (k, v) :: rest => .fld k v (Json.objOf rest)

/-- Association-list lookup (python `dict.get`): first binding for the key. -/
def lookupA {α : Type} (k : String) : List (String × α) → Option α
  | [] => none
  | (k₁, v) :: rest => if k₁ = k then some v else lookupA k rest

/-- Remove every binding for `k` (python `dict.pop(k, None)` / `del`). -/
def eraseA {α : Type} (k : String) (m : List (String × α)) : List (String × α) :=
  m.filter (fun kv => kv.1 ≠ k)

/-- Overwriting insert (python `d[k] = v`). -/
def insertA {α : Type} (k : String) (v : α) (m : List (String × α)) :
    List (String × α) :=
  (k, v) :: eraseA k m

/-- Set insert without duplicates (python `set.add`). -/
def insertS (x : String) (s : List String) : List String :=
  if x ∈ s then s else x :: s

/-- Set removal (python `set.discard`). -/
def eraseS (x : String) (s : List String) : List String :=
  s.filter (fun y => y ≠ x)

@[simp] theorem lookupA_insertA_self {α : Type} (k : String) (v : α)
    (m : List (String × α)) : lookupA k (insertA k v m) = some v := by
  simp [insertA, lookupA]

@[simp] theorem lookupA_eraseA_self {α : Type} (k : String)
    (m : List (String × α)) : lookupA k (eraseA k m) = none := by
  induction m with
  | nil => simp [eraseA, lookupA]
  | cons kv rest ih =>
      by_cases h : kv.1 = k
      · simpa [eraseA, h] using ih
      · simpa [eraseA, List.filter, h, lookupA] using ih

theorem eraseA_eraseA {α : Type} (k : String) (m : List (String × α)) :
    eraseA k (eraseA k m) = eraseA k m := by
  simp [eraseA, List.filter_filter]

/-! ## Constants (module head of `runners/claude.py`) -/

def ENGINE : String := "claude"

def DISCUSS_COOLDOWN_BASE_SECONDS : Int := 30
def DISCUSS_COOLDOWN_MAX_SECONDS : Int := 120

def DISCUSS_ESCALATION_MESSAGE : String :=
  "ExitPlanMode was temporarily held - Approve/Deny buttons have been shown to the user " ++
  "in Telegram. The user will click Approve when ready.\n\n" ++
  "If you have not written a plan outline yet, write one NOW as your next assistant message " ++
  "(at least 15 lines of visible text). The user can ONLY see your assistant text messages.\n\n" ++
  "WAIT for the user to approve via the buttons. Do NOT call ExitPlanMode again until they respond."

/-! ## Process-wide registries

One structure holding all the module-level dicts/sets of `runners/claude.py`.
`activeRunners` drops the runner object and keeps only the registration
timestamp (the paired runner instance is irrelevant to the claims: stdin is
always resolved through `sessionStdin`, with the fallback handle passed
explicitly where the source reads `self._proc_stdin`). -/

structure Globals where
  activeRunners : List (String × Int)
  sessionStdin : List (String × Nat)
  requestToSession : List (String × String)
  requestToInput : List (String × Json)
  handledRequests : List String
  discussCooldown : List (String × Int × Nat)
  discussApproved : List String
  pendingAskRequests : List (String × String)
  deriving DecidableEq, Repr

def Globals.empty : Globals :=
  { activeRunners := [], sessionStdin := [], requestToSession := [],
    requestToInput := [], handledRequests := [], discussCooldown := [],
    discussApproved := [], pendingAskRequests := [] }

/-! ## Discuss cooldown (`_cooldown_seconds`, `set_discuss_cooldown`,
`check_discuss_cooldown`, `clear_discuss_cooldown`) -/

/-- Embeds `_cooldown_seconds`: progressive cooldown `min(30 * count, 120)`. -/
def cooldown_seconds (count : Nat) : Int :=
  min (DISCUSS_COOLDOWN_BASE_SECONDS * count) DISCUSS_COOLDOWN_MAX_SECONDS

/-- Embeds `set_discuss_cooldown`: bump the deny count (existing count + 1, else 1)
and stamp the current time. -/
def set_discuss_cooldown (now : Int) (sessionId : String) (g : Globals) :
    Globals :=
  let count : Nat :=
    match lookupA sessionId g.discussCooldown with
    | some entry => entry.2 + 1
    | none => 1
  { g with discussCooldown := insertA sessionId (now, count) g.discussCooldown }

/-- Embeds `check_discuss_cooldown`: returns the escalation message while inside the
window; on expiry zeroes the timestamp but keeps the count and returns none. -/
def check_discuss_cooldown (now : Int) (sessionId : String) (g : Globals) :
    Option String × Globals :=
  match lookupA sessionId g.discussCooldown with
  | none => (none, g)
  | some (ts, count) =>
      if now - ts > cooldown_seconds count then
        (none,
         { g with discussCooldown :=
            insertA sessionId (0, count) g.discussCooldown })
      else
        (some DISCUSS_ESCALATION_MESSAGE, g)

/-- Embeds `clear_discuss_cooldown`: drop the entry. -/
def clear_discuss_cooldown (sessionId : String) (g : Globals) : Globals :=
  { g with discussCooldown := eraseA sessionId g.discussCooldown }

/-- Iterates `set_discuss_cooldown` N times, all calls stamped `t`. -/
def set_discuss_cooldown_iter : Nat → Int → String → Globals → Globals
  | 0, _, _, g => g
  | n + 1, t, sid, g =>
      set_discuss_cooldown t sid (set_discuss_cooldown_iter n t sid g)

/-! ## Stream messages, canonical events, per-session stream state -/

/-- Content block of an assistant/user stream message (subset of the schema
fields actually read by the translator). -/
inductive ContentBlock where
  | toolUse (id : String) (name : String) (input : Json)
  | thinking (text : String)
  | text (t : String)
  | toolResult (toolUseId : String) (isError : Bool)
  deriving DecidableEq, Repr

/-- Decoded control request (`schemas/claude.py` control request variants). -/
inductive ControlRequest where
  | initRequest
  | hookCallback
  | mcpMessage
  | rewindFiles
  | interrupt
  | canUseTool (toolName : String) (input : Json)
  | setPermissionMode (mode : String)
  deriving DecidableEq, Repr

/-- One decoded stdout JSONL line (`StreamJsonMessage` variants the
translator matches on; `other` covers every unmatched variant). -/
inductive StreamMessage where
  | system (subtype : String) (sessionId : Option String) (model : Option String)
  | assistant (content : List ContentBlock) (parentToolUseId : Option String)
  | user (content : List ContentBlock)
  | result (isError : Bool) (result : Option String) (sessionId : String)
  | controlRequest (requestId : String) (request : ControlRequest)
  | other
  deriving DecidableEq, Repr

/-- Canonical action record (`Action`; the `detail` map is presentational and
not modelled). -/
structure Action where
  id : String
  kind : String
  title : String
  deriving DecidableEq, Repr

/-- Canonical translator output (`StartedEvent` / `ActionEvent` /
`CompletedEvent`).  `requestId` mirrors `detail["request_id"]` on
permission-warning actions; it is `none` elsewhere. -/
inductive Event where
  | started (session : String) (title : String)
  | action (id : String) (kind : String) (title : String) (phase : String)
      (ok : Option Bool) (requestId : Option String)
  | completed (ok : Bool) (answer : String) (resume : Option String)
      (error : Option String)
  deriving DecidableEq, Repr

def Event.isCompleted : Event → Bool
  | .completed _ _ _ _ => true
  | _ => false

def Event.isWarning : Event → Bool
  | .action _ kind _ _ _ _ => kind = "warning"
  | _ => false

/-- Embeds `ClaudeStreamState`.  `factoryResume` stands for `state.factory.resume`:
the `EventFactory` class itself lives in `events.py`, which is not part of the
embedded source; per the spec the resume token is created by the translator on
the first system-init event, so the system-init branch records it here.
`maxTextLenSinceCooldown` and `outlineText` are the outline-tracking fields of
the plan-mode coordinator of the spec (section 4.7); the embedded source file
never touches them. -/
structure ClaudeStreamState where
  factoryResume : Option String := none
  pendingActions : List (String × Action) := []
  lastAssistantText : Option String := none
  noteSeq : Nat := 0
  pendingControlRequests : List (String × Int) := []
  autoApproveQueue : List String := []
  autoDenyQueue : List (String × String) := []
  lastToolUseId : Option String := none
  controlActionForTool : List (String × String) := []
  autoApproveExitPlanMode : Bool := false
  resumed : Bool := false
  maxTextLenSinceCooldown : Nat := 0
  outlineText : Option String := none
  deriving DecidableEq, Repr

/-- Embeds `ClaudeRunner.new_state`: fresh state; `auto_approve_exit_plan_mode` is set
when the effective permission mode is "auto", `resumed` when a resume token was
given. -/
def new_state (permissionModeIsAuto : Bool) (resume : Option String) :
    ClaudeStreamState :=
  { autoApproveExitPlanMode := permissionModeIsAuto, resumed := resume.isSome }

/-! ## Event translator (`translate_claude_event`) -/

/-- Modelled from the spec: `tool_kind_and_title` lives in
`runners/tool_actions.py`, which is not part of the embedded source.  Spec
section 3 assigns kind `command` to shell tools; every claim here is
insensitive to the exact mapping. -/
def tool_kind_and_title (name : String) : String × String :=
  if name = "Bash" then ("command", name) else ("tool", name)

/-- Embeds `_tool_action` (the `detail` map is presentational and dropped). -/
def tool_action (id : String) (name : String) : Action :=
  { id := id, kind := (tool_kind_and_title name).1,
    title := (tool_kind_and_title name).2 }

/-- Field lookup on a Json object chain. -/
def json_lookup (k : String) : Json → Option Json
  | .fld k₁ v rest => if k₁ = k then some v else json_lookup k rest
  | _ => none

/-- Question extraction for AskUserQuestion (`tool_input.get("question", "")`;
the nested `questions`-array fallback needs Json arrays, which this model
omits — no claim depends on it). -/
def ask_question_of (input : Json) : String :=
  match json_lookup "question" input with
  | some (.str q) => q
  | _ => ""

def TOOLS_REQUIRING_APPROVAL : List String := ["ExitPlanMode", "AskUserQuestion"]

def request_type_name : ControlRequest → String
  | .initRequest => "Initialize"
  | .hookCallback => "HookCallback"
  | .mcpMessage => "McpMessage"
  | .rewindFiles => "RewindFiles"
  | .interrupt => "Interrupt"
  | .canUseTool _ _ => "CanUseTool"
  | .setPermissionMode _ => "SetPermissionMode"

/-- The `_AUTO_APPROVE_TYPES` tuple: non-user-facing control requests. -/
def isAutoApproveType : ControlRequest → Bool
  | .initRequest => true
  | .hookCallback => true
  | .mcpMessage => true
  | .rewindFiles => true
  | .interrupt => true
  | _ => false

/-- The final, interactive branch of the control-request case: register the
request, sweep expired entries, link the preceding tool use, and yield the
permission-warning action (warning title details and the inline keyboard are
presentational and reduced to the request-type tag / `requestId` field). -/
def interactive_control_request (now : Int) (requestId : String)
    (req : ControlRequest) (s : ClaudeStreamState) (g : Globals) :
    ClaudeStreamState × Globals × List Event :=
  let requestType := request_type_name req
  let s₁ := { s with
    pendingControlRequests := insertA requestId now s.pendingControlRequests }
  let g₁ :=
    match s.factoryResume with
    | some sid =>
        let ga := { g with
          requestToSession := insertA requestId sid g.requestToSession }
        match req with
        | .canUseTool _ input =>
            { ga with requestToInput := insertA requestId input ga.requestToInput }
        | _ => ga
    | none => g
  let expired := (s₁.pendingControlRequests.filter
      (fun p => now - p.2 > 300)).map (fun p => p.1)
  let s₂ := { s₁ with
    pendingControlRequests :=
      s₁.pendingControlRequests.filter (fun p => ¬ (now - p.2 > 300)) }
  let g₂ := expired.foldl
      (fun gb rid => { gb with requestToInput := eraseA rid gb.requestToInput }) g₁
  let s₃ := { s₂ with noteSeq := s₂.noteSeq + 1 }
  let actionId := "claude.control." ++ toString s₃.noteSeq
  let s₄ :=
    match s₃.lastToolUseId with
    | some t => { s₃ with
        controlActionForTool := insertA t actionId s₃.controlActionForTool }
    | none => s₃
  let g₃ :=
    match req with
    | .canUseTool "AskUserQuestion" input =>
        { g₂ with
          pendingAskRequests :=
            insertA requestId (ask_question_of input) g₂.pendingAskRequests }
    | _ => g₂
  let warningTitle := "Permission Request [" ++ requestType ++ "]"
  (s₄, g₃,
   [Event.action actionId "warning" warningTitle "started" none (some requestId)])

/-- The `StreamControlRequest` case of `translate_claude_event`: classify and
either queue an auto-approve, queue a discuss-cooldown auto-deny (with the
synthetic `da:` approval action), or fall through to the interactive branch. -/
def translate_control_request (now : Int) (requestId : String)
    (req : ControlRequest) (s : ClaudeStreamState) (g : Globals) :
    ClaudeStreamState × Globals × List Event :=
  if isAutoApproveType req then
    ({ s with autoApproveQueue := s.autoApproveQueue ++ [requestId] }, g, [])
  else
    match req with
    | .canUseTool tool _input =>
        if tool ∉ TOOLS_REQUIRING_APPROVAL then
          ({ s with autoApproveQueue := s.autoApproveQueue ++ [requestId] }, g, [])
        else if tool = "ExitPlanMode" ∧ s.autoApproveExitPlanMode then
          ({ s with autoApproveQueue := s.autoApproveQueue ++ [requestId] }, g, [])
        else
          match s.factoryResume with
          | some sid =>
              if tool = "ExitPlanMode" ∧ sid ∈ g.discussApproved then
                let g₁ := clear_discuss_cooldown sid
                    { g with discussApproved := eraseS sid g.discussApproved }
                ({ s with autoApproveQueue := s.autoApproveQueue ++ [requestId] },
                 g₁, [])
              else if tool = "ExitPlanMode" then
                match check_discuss_cooldown now sid g with
                | (some msg, g₁) =>
                    let g₂ := { g₁ with
                        requestToInput := eraseA requestId g₁.requestToInput }
                    let s₁ := { s with
                        autoDenyQueue := s.autoDenyQueue ++ [(requestId, msg)],
                        noteSeq := s.noteSeq + 1 }
                    let synthActionId :=
                        "claude.discuss_approve." ++ toString s₁.noteSeq
                    let synthRequestId := "da:" ++ sid
                    let g₃ := { g₂ with
                        requestToSession :=
                          insertA synthRequestId sid g₂.requestToSession }
                    (s₁, g₃,
                     [Event.action synthActionId "warning"
                        "Plan outlined - approve to proceed" "started" none
                        (some synthRequestId)])
                | (none, g₁) =>
                    interactive_control_request now requestId req s g₁
              else
                interactive_control_request now requestId req s g
          | none => interactive_control_request now requestId req s g
    | _ => interactive_control_request now requestId req s g

/-- One step of the assistant-message content loop. -/
def assistant_block (acc : ClaudeStreamState × List Event) (c : ContentBlock) :
    ClaudeStreamState × List Event :=
  match c with
  | .toolUse id name _input =>
      let a := tool_action id name
      ({ acc.1 with pendingActions := insertA id a acc.1.pendingActions,
                    lastToolUseId := some id },
       acc.2 ++ [Event.action a.id a.kind a.title "started" none none])
  | .thinking t =>
      if t = "" then acc
      else
        let s₁ := { acc.1 with noteSeq := acc.1.noteSeq + 1 }
        (s₁, acc.2 ++ [Event.action ("claude.thinking." ++ toString s₁.noteSeq)
                         "note" t "completed" (some true) none])
  | .text t =>
      if t = "" then acc else ({ acc.1 with lastAssistantText := some t }, acc.2)
  | .toolResult _ _ => acc

/-- One step of the user-message content loop (tool results). -/
def user_block (acc : ClaudeStreamState × List Event) (c : ContentBlock) :
    ClaudeStreamState × List Event :=
  match c with
  | .toolResult tid isError =>
      let picked :=
        match lookupA tid acc.1.pendingActions with
        | some a =>
            (a, { acc.1 with pendingActions := eraseA tid acc.1.pendingActions })
        | none => (({ id := tid, kind := "tool", title := "tool result" } : Action),
                   acc.1)
      let a := picked.1
      let s₁ := picked.2
      let out₁ := acc.2 ++ [Event.action a.id a.kind a.title "completed"
          (some (!isError)) none]
      match lookupA tid s₁.controlActionForTool with
      | some cid =>
          ({ s₁ with controlActionForTool := eraseA tid s₁.controlActionForTool },
           out₁ ++ [Event.action cid "warning" "Permission resolved" "completed"
              (some true) none])
      | none => (s₁, out₁)
  | _ => acc

/-- Embeds `_extract_error`, abbreviated: first line of the error message (the
diagnostic second line — session excerpt, turn count, cost — is
presentational and dropped; no claim reads it). -/
def extract_error (result : Option String) : String :=
  match result with
  | some r => if r = "" then "claude run failed" else r
  | none => "claude run failed"

/-- Embeds `translate_claude_event`: map one decoded stream message to canonical
events, mutating the stream state and the process-wide registries. -/
def translate_claude_event (now : Int) (title : String) (msg : StreamMessage)
    (s : ClaudeStreamState) (g : Globals) :
    ClaudeStreamState × Globals × List Event :=
  match msg with
  | .system subtype sessionId model =>
      if subtype ≠ "init" then (s, g, [])
      else
        match sessionId with
        | none => (s, g, [])
        | some sid =>
            if sid = "" then (s, g, [])
            else
              let eventTitle :=
                match model with
                | some m => if m = "" then title else m
                | none => title
              ({ s with factoryResume := some sid }, g,
               [Event.started sid eventTitle])
  | .assistant content _parent =>
      let r := content.foldl assistant_block (s, [])
      (r.1, g, r.2)
  | .user content =>
      let r := content.foldl user_block (s, [])
      (r.1, g, r.2)
  | .result isError result sessionId =>
      let ok := !isError
      let resultText₀ := result.getD ""
      let resultText :=
        if ok = true ∧ resultText₀ = "" then
          match s.lastAssistantText with
          | some t => if t = "" then resultText₀ else t
          | none => resultText₀
        else resultText₀
      let error := if ok then none else some (extract_error result)
      (s, g, [Event.completed ok resultText (some sessionId) error])
  | .controlRequest requestId req => translate_control_request now requestId req s g
  | .other => (s, g, [])

/-! ## Control responses written to stdin -/

/-- One line written to a subprocess stdin handle. -/
structure StdinWrite where
  handle : Nat
  payload : Json
  deriving DecidableEq, Repr

/-- The outer control-response envelope:
`{"type":"control_response","response":{"subtype":"success","request_id":…,"response":inner}}`. -/
def control_response_payload (requestId : String) (inner : Json) : Json :=
  Json.objOf
    [("type", .str "control_response"),
     ("response", Json.objOf
        [("subtype", .str "success"),
         ("request_id", .str requestId),
         ("response", inner)])]

/-- The inner payload built by `write_control_response`: on approve,
`{"behavior":"allow"}` plus `updatedInput` when an original tool input is
stored for the request; on deny, `{"behavior":"deny","message":…}` (never an
`updatedInput`). -/
def write_inner (requestId : String) (approved : Bool)
    (denyMessage : Option String) (g : Globals) : Json :=
  if approved then
    match lookupA requestId g.requestToInput with
    | some v => Json.objOf [("behavior", .str "allow"), ("updatedInput", v)]
    | none => Json.objOf [("behavior", .str "allow")]
  else
    Json.objOf
      [("behavior", .str "deny"),
       ("message", .str (denyMessage.getD "User denied"))]

/-- Embeds `ClaudeRunner.write_control_response`: build the allow/deny inner payload
(popping `_REQUEST_TO_INPUT`), resolve the stdin channel
(`_SESSION_STDIN[session]`, else the instance pipe, else the PTY), and write.
A write failure or missing channel only logs; the empty write list models
both. -/
def write_control_response (requestId : String) (approved : Bool)
    (denyMessage : Option String) (procStdin : Option Nat) (ptyFd : Option Nat)
    (g : Globals) : Globals × List StdinWrite :=
  let inner := write_inner requestId approved denyMessage g
  let g₁ :=
    if approved then
      match lookupA requestId g.requestToInput with
      | some _ => { g with requestToInput := eraseA requestId g.requestToInput }
      | none => g
    else { g with requestToInput := eraseA requestId g.requestToInput }
  let payload := control_response_payload requestId inner
  let sessionId := lookupA requestId g.requestToSession
  let sessionStdin := sessionId.bind (fun sid => lookupA sid g.sessionStdin)
  let stdinToUse :=
    match sessionStdin with
    | some h => some h
    | none => procStdin
  let writes :=
    match stdinToUse with
    | some h => [(⟨h, payload⟩ : StdinWrite)]
    | none =>
        match ptyFd with
        | some h => [(⟨h, payload⟩ : StdinWrite)]
        | none => []
  (g₁, writes)

/-- The auto-approve response line: `{"behavior":"allow"}` (no
`updatedInput`), wrapped in the control-response envelope. -/
def auto_approve_write (h : Nat) (rid : String) : StdinWrite :=
  ⟨h, control_response_payload rid (Json.objOf [("behavior", .str "allow")])⟩

/-- The auto-deny response line: `{"behavior":"deny","message":…}`, wrapped
in the control-response envelope. -/
def auto_deny_write (h : Nat) (p : String × String) : StdinWrite :=
  ⟨h, control_response_payload p.1
    (Json.objOf [("behavior", .str "deny"), ("message", .str p.2)])⟩

/-- Embeds `ClaudeRunner._drain_auto_approve`: write `{"behavior":"allow"}` for
every queued request id, then clear the queue (the queue is cleared even when
no channel exists and nothing could be written). -/
def drain_auto_approve (stdin : Option Nat) (procStdin : Option Nat)
    (ptyFd : Option Nat) (s : ClaudeStreamState) :
    ClaudeStreamState × List StdinWrite :=
  let pipe :=
    match stdin with
    | some h => some h
    | none => procStdin
  let channel :=
    match pipe with
    | some h => some h
    | none => ptyFd
  let writes :=
    match channel with
    | some h => s.autoApproveQueue.map (auto_approve_write h)
    | none => []
  ({ s with autoApproveQueue := [] }, writes)

/-- Embeds `ClaudeRunner._drain_auto_deny`: write `{"behavior":"deny","message":…}`
for every queued pair, then clear the queue. -/
def drain_auto_deny (stdin : Option Nat) (procStdin : Option Nat)
    (ptyFd : Option Nat) (s : ClaudeStreamState) :
    ClaudeStreamState × List StdinWrite :=
  let pipe :=
    match stdin with
    | some h => some h
    | none => procStdin
  let channel :=
    match pipe with
    | some h => some h
    | none => ptyFd
  let writes :=
    match channel with
    | some h => s.autoDenyQueue.map (auto_deny_write h)
    | none => []
  ({ s with autoDenyQueue := [] }, writes)

/-- Embeds `send_claude_control_response`: route a user callback to the stdin
of the right session.  Returns the reported success flag, the updated registries,
and the writes performed. -/
def send_claude_control_response (requestId : String) (approved : Bool)
    (denyMessage : Option String) (procStdin : Option Nat) (ptyFd : Option Nat)
    (g : Globals) : Bool × Globals × List StdinWrite :=
  match lookupA requestId g.requestToSession with
  | none =>
      if requestId ∈ g.handledRequests then (true, g, [])
      else (false, g, [])
  | some sessionId =>
      match lookupA sessionId g.activeRunners with
      | none =>
          (false,
           { g with requestToSession := eraseA requestId g.requestToSession,
                    requestToInput := eraseA requestId g.requestToInput },
           [])
      | some _ =>
          let wr := write_control_response requestId approved denyMessage
              procStdin ptyFd g
          let g₁ : Globals := { wr.1 with
            requestToSession := eraseA requestId wr.1.requestToSession,
            handledRequests := insertS requestId wr.1.handledRequests }
          let g₂ :=
            if g₁.handledRequests.length > 100 then
              { g₁ with handledRequests := [] }
            else g₁
          (true, g₂, wr.2)

/-! ## The per-line event loop (`_iter_jsonl_events`) and the run epilogue -/

/-- Accumulator of the stdout-reading loop: stream state, registries, the
base-class `JsonlStreamState` flags (`found_session`, `did_emit_completed`,
both driven by the canonical events per spec section 4.1 — `runner.py` is not
part of the embedded source), the first registered session id, and the events
yielded / stdin writes performed so far. -/
structure LoopAcc where
  s : ClaudeStreamState
  g : Globals
  registeredSessionId : Option String := none
  foundSession : Option String := none
  didEmitCompleted : Bool := false
  events : List Event := []
  writes : List StdinWrite := []
  deriving Repr

/-- Per-event bookkeeping inside the loop body: `ClaudeRunner.translate`
registers `_ACTIVE_RUNNERS[session]` for every StartedEvent, and
`_iter_jsonl_events` registers `_SESSION_STDIN[session]` (with the captured
per-run stdin handle) for the first StartedEvent only. -/
def register_event (now : Int) (stdin : Option Nat) (acc : LoopAcc) (e : Event) :
    LoopAcc :=
  match e with
  | .started sid _ =>
      let g₁ := { acc.g with activeRunners := insertA sid now acc.g.activeRunners }
      let found :=
        match acc.foundSession with
        | some f => some f
        | none => some sid
      let acc₁ := { acc with g := g₁, foundSession := found }
      match acc₁.registeredSessionId with
      | some _ => acc₁
      | none =>
          match stdin with
          | some h =>
              let g₂ := { acc₁.g with
                sessionStdin := insertA sid h acc₁.g.sessionStdin }
              { acc₁ with registeredSessionId := some sid, g := g₂ }
          | none => { acc₁ with registeredSessionId := some sid }
  | .completed _ _ _ _ => { acc with didEmitCompleted := true }
  | _ => acc

/-- The body of `_iter_jsonl_events` for one completed stdout line: translate,
register/yield the events, then drain both auto-response queues — even when
the line yielded zero events. -/
def process_line (now : Int) (title : String) (stdin : Option Nat)
    (procStdin : Option Nat) (ptyFd : Option Nat) (acc : LoopAcc)
    (msg : StreamMessage) : LoopAcc :=
  let tr := translate_claude_event now title msg acc.s acc.g
  let acc₁ := tr.2.2.foldl (register_event now stdin)
      { acc with s := tr.1, g := tr.2.1, events := acc.events ++ tr.2.2 }
  let da := drain_auto_approve stdin procStdin ptyFd acc₁.s
  let dd := drain_auto_deny stdin procStdin ptyFd da.1
  { acc₁ with s := dd.1, writes := acc₁.writes ++ da.2 ++ dd.2 }

/-- The loop of `_iter_jsonl_events`: process lines in order, stopping right
after the line on which a CompletedEvent was emitted (early-EOF break). -/
def run_lines (now : Int) (title : String) (stdin : Option Nat)
    (procStdin : Option Nat) (ptyFd : Option Nat) (acc : LoopAcc) :
    List StreamMessage → LoopAcc
  | [] => acc
  | m :: rest =>
      let acc₁ := process_line now title stdin procStdin ptyFd acc m
      if acc₁.didEmitCompleted then acc₁
      else run_lines now title stdin procStdin ptyFd acc₁ rest

/-- Modelled from the spec: `EventFactory.completed_error` lives in
`events.py`, which is not part of the embedded source.  Per spec section 7,
every synthesised error completion is a CompletedEvent with ok = false
carrying the error message; `answer` defaults to the empty string. -/
def completed_error (error : String) (answer : String) (resume : Option String) :
    Event :=
  Event.completed false answer resume (some error)

/-- Modelled from the spec: `_rc_label` lives in `runner.py`, which is not
part of the embedded source; spec scenario 5 renders rc = 137 as
"signal 9". -/
def rc_label (rc : Int) : String :=
  if rc ≥ 128 then "signal " ++ toString (rc - 128) else "rc " ++ toString rc

/-- Modelled from the spec: `_session_label` lives in `runner.py`, which is
not part of the embedded source; spec scenario 5 shows the found session id
(falling back to the initial resume) rendered after "session: ". -/
def session_label (found : Option String) (resume : Option String) :
    Option String :=
  match found with
  | some v => some v
  | none => resume

/-- Modelled from the spec: `_stderr_excerpt` lives in `runner.py`, which is
not part of the embedded source; spec section 4.1 bounds the excerpt at the
last 20 captured stderr lines. -/
def stderr_excerpt (lines : List String) : Option String :=
  if lines = [] then none
  else some ("stderr: " ++
    String.intercalate "\n" (lines.drop (lines.length - 20)))

/-- Modelled from the spec: `Runner.note_event` lives in `runner.py`, which is
not part of the embedded source; it wraps a message as a completed note
action. -/
def note_event (message : String) (ok : Bool) : Event :=
  Event.action "claude.note" "note" message "completed" (some ok) none

def optToList : Option String → List String
  | some v => [v]
  | none => []

/-- Embeds `ClaudeRunner.process_error_events` (non-zero exit after stdout EOF):
unregister the session from every registry, then emit a diagnostic note and
the synthesised failure completion carrying the best resume token
(found session, else the initial resume). -/
def process_error_events (rc : Int) (resume : Option String)
    (foundSession : Option String) (stderrLines : List String)
    (_s : ClaudeStreamState) (g : Globals) : Globals × List Event :=
  let sessionId :=
    match foundSession with
    | some v => some v
    | none => resume
  let g₁ :=
    match sessionId with
    | some sid =>
        clear_discuss_cooldown sid
          { g with activeRunners := eraseA sid g.activeRunners,
                   sessionStdin := eraseA sid g.sessionStdin,
                   discussApproved := eraseS sid g.discussApproved }
    | none => g
  let parts := ["claude failed (" ++ rc_label rc ++ ")."] ++
      (optToList ((session_label foundSession resume).map
          (fun sid => "session: " ++ sid))) ++
      optToList (stderr_excerpt stderrLines)
  let message := String.intercalate "\n" parts
  let resumeForCompleted :=
    match foundSession with
    | some v => some v
    | none => resume
  (g₁, [note_event message false,
        completed_error message "" resumeForCompleted])

/-- The stream-end error message when no session id was captured. -/
def NO_SESSION_MESSAGE : String := "claude finished but no session_id was captured"

/-- The stream-end error message when a session was captured but the stream
ended without a result event. -/
def NO_RESULT_MESSAGE : String := "claude finished without a result event"

/-- Embeds `ClaudeRunner.stream_end_events` (clean exit, stdout EOF, but no
CompletedEvent was yielded by the stream): unregister the session, then
synthesise the completion.  Without a captured session id the error is the
no-session message and the event carries the initial resume token; with one,
the error is the no-result message, the answer is the last assistant text and
the event carries the found session. -/
def stream_end_events (resume : Option String) (foundSession : Option String)
    (s : ClaudeStreamState) (g : Globals) : Globals × List Event :=
  let sessionId :=
    match foundSession with
    | some v => some v
    | none => resume
  let g₁ :=
    match sessionId with
    | some sid =>
        clear_discuss_cooldown sid
          { g with activeRunners := eraseA sid g.activeRunners,
                   sessionStdin := eraseA sid g.sessionStdin,
                   discussApproved := eraseS sid g.discussApproved }
    | none => g
  match foundSession with
  | none =>
      let parts := [NO_SESSION_MESSAGE] ++
        (optToList ((session_label none resume).map
            (fun sid => "session: " ++ sid)))
      let message := String.intercalate "\n" parts
      (g₁, [completed_error message "" resume])
  | some found =>
      let parts := [NO_RESULT_MESSAGE] ++
        (optToList ((session_label foundSession resume).map
            (fun sid => "session: " ++ sid)))
      let message := String.intercalate "\n" parts
      (g₁, [completed_error message (s.lastAssistantText.getD "") (some found)])

/-- The tail of `ClaudeRunner.run_impl` after stdout EOF and `proc.wait()`:
if the stream already emitted its CompletedEvent, return with no further
events (and no registry cleanup); on a non-zero exit code synthesise the
failure completion; otherwise synthesise the stream-end completion. -/
def run_end (didEmitCompleted : Bool) (rc : Int) (resume : Option String)
    (foundSession : Option String) (stderrLines : List String)
    (s : ClaudeStreamState) (g : Globals) : Globals × List Event :=
  if didEmitCompleted then (g, [])
  else if rc ≠ 0 then
    process_error_events rc resume foundSession stderrLines s g
  else
    stream_end_events resume foundSession s g

/-- A whole run of `ClaudeRunner.run_impl` in control-channel mode: start-run
registration (`resume` present registers the runner eagerly), the stdout line
loop with its per-line queue drains, then the epilogue.  `stdinHandle` is the
captured subprocess stdin of this run. -/
def run_session (now : Int) (title : String) (permissionModeIsAuto : Bool)
    (resume : Option String) (stdinHandle : Nat) (lines : List StreamMessage)
    (rc : Int) (stderrLines : List String) (g : Globals) :
    Globals × List Event × List StdinWrite :=
  let s₀ := new_state permissionModeIsAuto resume
  let g₀ :=
    match resume with
    | some r => { g with activeRunners := insertA r now g.activeRunners }
    | none => g
  let acc := run_lines now title (some stdinHandle) (some stdinHandle) none
      { s := s₀, g := g₀ } lines
  let fin := run_end acc.didEmitCompleted rc resume acc.foundSession
      stderrLines acc.s acc.g
  (fin.1, acc.events ++ fin.2, acc.writes)

/-! ## Outline-detection bypass (plan-mode coordinator) -/

/-- Modelled from the spec: the outline-threshold constant
(`maxTextLenSinceCooldown ≥ 200` characters, spec sections 4.3 and 4.7); the
constant is not defined in the embedded source file. -/
def OUTLINE_MIN_CHARS : Nat := 200

/-- Modelled from the spec: the "wait for user" deny message of the
outline-detected branch (spec section 4.3 rule 5); the message text is not in
the embedded source file, so a representative constant stands for it. -/
def OUTLINE_WAIT_MESSAGE : String :=
  "A plan outline was written - wait for the user to approve via the buttons."

/-- Modelled from the spec: the outline-detection branch of the ExitPlanMode
discuss-cooldown path (spec section 4.3 rule 5), absent from the embedded
source file.  For a session in the discuss cooldown: if
`maxTextLenSinceCooldown` has reached the outline threshold, enqueue an
auto-deny with the "wait for user" message and reset the counter; otherwise
enqueue an auto-deny with the escalation message.  Returns the updated state
and the (request id, deny message) pair that was enqueued. -/
def exit_plan_cooldown_deny (requestId : String) (escalationMsg : String)
    (s : ClaudeStreamState) : ClaudeStreamState × (String × String) :=
  if s.maxTextLenSinceCooldown ≥ OUTLINE_MIN_CHARS then
    ({ s with autoDenyQueue := s.autoDenyQueue ++ [(requestId, OUTLINE_WAIT_MESSAGE)],
              maxTextLenSinceCooldown := 0,
              outlineText := none },
     (requestId, OUTLINE_WAIT_MESSAGE))
  else
    ({ s with autoDenyQueue := s.autoDenyQueue ++ [(requestId, escalationMsg)] },
     (requestId, escalationMsg))

/-! ## Concrete scenarios -/

/-- Happy path with permissions off: session init, then the result line
of the agent itself. -/
def result_line_lines : List StreamMessage :=
  [.system "init" (some "S") (some "m"),
   .result false (some "hi") "S"]

/-- The Bash tool input of spec scenario 2, keyed as the claim writes it. -/
def bash_input : Json := Json.objOf [("cmd", .str "ls")]

/-- Spec scenario 2: session init, a Bash tool use, then the matching
`can_use_tool` control request. -/
def scenario_bash_lines : List StreamMessage :=
  [.system "init" (some "S") (some "m"),
   .assistant [.toolUse "T" "Bash" bash_input] none,
   .controlRequest "R" (.canUseTool "Bash" bash_input)]

/-- One hundred distinct already-handled request ids (the duplicate-marker
cap boundary). -/
def hundred_ids : List String := (List.range 100).map (fun i => "h" ++ toString i)

/-- Registries holding one approvable pending request while the
handled-requests set already sits at the 100-entry cap. -/
def g_full : Globals :=
  { Globals.empty with
    requestToSession := [("R", "S")],
    requestToInput := [("R", Json.emp)],
    activeRunners := [("S", 0)],
    sessionStdin := [("S", 7)],
    handledRequests := hundred_ids }

/-! ## Helper observations -/

/-- The ok flag of a CompletedEvent, if the event is one. -/
def completedOk : Event → Option Bool
  | .completed ok _ _ _ => some ok
  | _ => none

/-- The resume token of a CompletedEvent, if the event is one. -/
def completedResume : Event → Option (Option String)
  | .completed _ _ r _ => some r
  | _ => none

theorem insertS_mem (x : String) (s : List String) : x ∈ insertS x s := by
  by_cases h : x ∈ s <;> simp [insertS, h]

theorem insertS_length_le (x : String) (s : List String) :
    (insertS x s).length ≤ s.length + 1 := by
  by_cases h : x ∈ s <;> simp [insertS, h]

theorem lookupA_set_discuss_cooldown (t : Int) (sid : String) (g : Globals) :
    lookupA sid (set_discuss_cooldown t sid g).discussCooldown =
      some (t, match lookupA sid g.discussCooldown with
               | some e => e.2 + 1
               | none => 1) := by
  simp [set_discuss_cooldown]

theorem lookupA_set_iter (t : Int) (sid : String) (g : Globals)
    (habs : lookupA sid g.discussCooldown = none) (n : Nat) :
    lookupA sid (set_discuss_cooldown_iter (n + 1) t sid g).discussCooldown =
      some (t, n + 1) := by
  induction n with
  | zero =>
      show lookupA sid (set_discuss_cooldown t sid
        (set_discuss_cooldown_iter 0 t sid g)).discussCooldown = some (t, 1)
      rw [lookupA_set_discuss_cooldown]
      simp [set_discuss_cooldown_iter, habs]
  | succ k ih =>
      show lookupA sid (set_discuss_cooldown t sid
        (set_discuss_cooldown_iter (k + 1) t sid g)).discussCooldown =
          some (t, k + 2)
      rw [lookupA_set_discuss_cooldown, ih]

/-! ## Claims -/

/-- C10: translating a system message with subtype "init" whose session id is
missing or empty yields no events and leaves the stream state and registries
unchanged, so a session can never be registered without a session id. -/
theorem init_without_session_id_is_noop (now : Int) (title : String)
    (sid : Option String) (model : Option String) (s : ClaudeStreamState)
    (g : Globals) (h : sid = none ∨ sid = some "") :
    translate_claude_event now title (.system "init" sid model) s g =
      (s, g, []) := by
  rcases h with h | h <;> subst h <;> simp [translate_claude_event]

/-- Witness for C10 at a concrete missing session id. -/
theorem init_without_session_id_is_noop_witness :
    translate_claude_event 0 "claude" (.system "init" none none)
      (new_state false none) Globals.empty =
      (new_state false none, Globals.empty, []) :=
  init_without_session_id_is_noop 0 "claude" none none (new_state false none)
    Globals.empty (Or.inl rfl)

/-- C1: in the discuss-cooldown ExitPlanMode branch, a peak assistant-text
length of at least 200 characters (the outline threshold) enqueues an
auto-deny with the "wait for user" message and resets the counter to zero,
while a peak below 200 enqueues an auto-deny with the escalation message
instead. -/
theorem exit_plan_cooldown_outline_branch (rid escalationMsg : String)
    (s : ClaudeStreamState) :
    (200 ≤ s.maxTextLenSinceCooldown →
      (exit_plan_cooldown_deny rid escalationMsg s).1.autoDenyQueue =
          s.autoDenyQueue ++ [(rid, OUTLINE_WAIT_MESSAGE)] ∧
      (exit_plan_cooldown_deny rid escalationMsg s).1.maxTextLenSinceCooldown = 0)
    ∧ (s.maxTextLenSinceCooldown < 200 →
      (exit_plan_cooldown_deny rid escalationMsg s).1.autoDenyQueue =
          s.autoDenyQueue ++ [(rid, escalationMsg)] ∧
      (exit_plan_cooldown_deny rid escalationMsg s).1.maxTextLenSinceCooldown =
          s.maxTextLenSinceCooldown) := by
  constructor
  · intro h
    rw [exit_plan_cooldown_deny, if_pos (by simpa [OUTLINE_MIN_CHARS] using h)]
    exact ⟨rfl, rfl⟩
  · intro h
    rw [exit_plan_cooldown_deny,
      if_neg (by simp [OUTLINE_MIN_CHARS]; omega)]
    exact ⟨rfl, rfl⟩

/-- Witness for C1 at the boundary: a peak of exactly 200 characters takes
the "wait for user" branch, a peak of exactly 199 takes the escalation
branch. -/
theorem exit_plan_cooldown_outline_branch_witness :
    (exit_plan_cooldown_deny "R" "esc"
        { maxTextLenSinceCooldown := 200 }).1.autoDenyQueue =
      [("R", OUTLINE_WAIT_MESSAGE)]
    ∧ (exit_plan_cooldown_deny "R" "esc"
        { maxTextLenSinceCooldown := 199 }).1.autoDenyQueue = [("R", "esc")] := by
  constructor
  · have h := (exit_plan_cooldown_outline_branch "R" "esc"
      { maxTextLenSinceCooldown := 200 }).1 (by decide)
    simpa using h.1
  · have h := (exit_plan_cooldown_outline_branch "R" "esc"
      { maxTextLenSinceCooldown := 199 }).2 (by decide)
    simpa using h.1

/-- C8: N consecutive `set_discuss_cooldown` calls (from an absent entry)
store count N with window `min(30 N, 120)`; `check_discuss_cooldown` returns
the escalation message exactly when `now - ts ≤ window` (the boundary
`now - ts = window` counts as inside); `clear_discuss_cooldown` is
idempotent. -/
theorem discuss_cooldown_laws (N : Nat) (hN : 1 ≤ N) (t : Int) (sid : String)
    (g : Globals) (habs : lookupA sid g.discussCooldown = none) :
    (lookupA sid (set_discuss_cooldown_iter N t sid g).discussCooldown =
        some (t, N)
      ∧ cooldown_seconds N = min (30 * (N : Int)) 120)
    ∧ (∀ (now : Int) (g₂ : Globals) (ts : Int) (c : Nat),
        lookupA sid g₂.discussCooldown = some (ts, c) →
        ((check_discuss_cooldown now sid g₂).1 =
            some DISCUSS_ESCALATION_MESSAGE
          ↔ now - ts ≤ cooldown_seconds c))
    ∧ clear_discuss_cooldown sid (clear_discuss_cooldown sid g) =
        clear_discuss_cooldown sid g := by
  refine ⟨⟨?_, rfl⟩, ?_, ?_⟩
  · obtain ⟨m, rfl⟩ : ∃ m, N = m + 1 := ⟨N - 1, by omega⟩
    exact lookupA_set_iter t sid g habs m
  · intro now g₂ ts c hl
    unfold check_discuss_cooldown
    rw [hl]
    by_cases hw : now - ts > cooldown_seconds c
    · simp only [if_pos hw]
      constructor
      · intro hc; exact absurd hc (by simp)
      · intro hc; omega
    · simp only [if_neg hw]
      constructor
      · intro _; omega
      · intro _; trivial
  · simp [clear_discuss_cooldown, eraseA_eraseA]

/-- Witness for C8 at N = 5 from the empty registry. -/
theorem discuss_cooldown_laws_witness :
    (lookupA "s" (set_discuss_cooldown_iter 5 0 "s"
        Globals.empty).discussCooldown = some (0, 5)
      ∧ cooldown_seconds 5 = min (30 * (5 : Int)) 120)
    ∧ clear_discuss_cooldown "s" (clear_discuss_cooldown "s" Globals.empty) =
        clear_discuss_cooldown "s" Globals.empty := by
  have h := discuss_cooldown_laws 5 (by decide) 0 "s" Globals.empty rfl
  exact ⟨h.1, h.2.2⟩

theorem interactive_control_request_autoApprove (now : Int) (rid : String)
    (req : ControlRequest) (s : ClaudeStreamState) (g : Globals) :
    (interactive_control_request now rid req s g).1.autoApproveQueue =
      s.autoApproveQueue := by
  unfold interactive_control_request
  dsimp only
  cases s.lastToolUseId <;> rfl

/-- C4: a `can_use_tool` control request for a tool outside
{ExitPlanMode, AskUserQuestion} is always appended to the auto-approve queue;
AskUserQuestion is never auto-approved; ExitPlanMode is not auto-approved
unless the auto-permission-mode bypass or the discuss-approved bypass
applies. -/
theorem tool_approval_gating (now : Int) (rid : String) (tool : String)
    (input : Json) (s : ClaudeStreamState) (g : Globals) :
    (tool ∉ TOOLS_REQUIRING_APPROVAL →
      (translate_control_request now rid (.canUseTool tool input) s
          g).1.autoApproveQueue = s.autoApproveQueue ++ [rid])
    ∧ (tool = "AskUserQuestion" →
      (translate_control_request now rid (.canUseTool tool input) s
          g).1.autoApproveQueue = s.autoApproveQueue)
    ∧ (tool = "ExitPlanMode" → s.autoApproveExitPlanMode = false →
      (∀ sid, s.factoryResume = some sid → sid ∉ g.discussApproved) →
      (translate_control_request now rid (.canUseTool tool input) s
          g).1.autoApproveQueue = s.autoApproveQueue) := by
  refine ⟨?_, ?_, ?_⟩
  · intro hnot
    unfold translate_control_request
    simp only [isAutoApproveType, Bool.false_eq_true, if_false]
    rw [if_pos hnot]
  · intro htool
    subst htool
    unfold translate_control_request
    simp only [isAutoApproveType, Bool.false_eq_true, if_false]
    rw [if_neg (by decide), if_neg (by simp)]
    cases hf : s.factoryResume with
    | none => exact interactive_control_request_autoApprove now rid _ s g
    | some sid =>
        dsimp only
        rw [if_neg (fun h => absurd h.1 (by decide)), if_neg (by decide)]
        exact interactive_control_request_autoApprove now rid _ s g
  · intro htool hauto hnotapproved
    subst htool
    unfold translate_control_request
    simp only [isAutoApproveType, Bool.false_eq_true, if_false]
    rw [if_neg (by decide), if_neg (by simp [hauto])]
    cases hf : s.factoryResume with
    | none => exact interactive_control_request_autoApprove now rid _ s g
    | some sid =>
        dsimp only
        rw [if_neg (fun h => hnotapproved sid hf h.2), if_pos (by trivial)]
        rcases hc : check_discuss_cooldown now sid g with ⟨msgOpt, g₁⟩
        cases msgOpt with
        | none => exact interactive_control_request_autoApprove now rid _ s g₁
        | some msg => rfl

/-- Witness for C4: a Bash request is auto-approved, an ExitPlanMode request
with no bypass is not. -/
theorem tool_approval_gating_witness :
    (translate_control_request 0 "R1" (.canUseTool "Bash" Json.emp)
        (new_state false none) Globals.empty).1.autoApproveQueue = ["R1"]
    ∧ (translate_control_request 0 "R2" (.canUseTool "ExitPlanMode" Json.emp)
        (new_state false none) Globals.empty).1.autoApproveQueue = [] := by
  constructor
  · have h := (tool_approval_gating 0 "R1" "Bash" Json.emp
      (new_state false none) Globals.empty).1 (by decide)
    simpa [new_state] using h
  · have h := (tool_approval_gating 0 "R2" "ExitPlanMode" Json.emp
      (new_state false none) Globals.empty).2.2 rfl rfl
      (fun sid hs => by simp [new_state] at hs)
    simpa [new_state] using h

theorem register_event_s (now : Int) (stdin : Option Nat) (a : LoopAcc)
    (e : Event) : (register_event now stdin a e).s = a.s := by
  cases e with
  | started sid t =>
      dsimp only [register_event]
      cases a.registeredSessionId <;> cases stdin <;> rfl
  | action i k t p ok rid => rfl
  | completed ok ans r err => rfl

theorem register_event_writes (now : Int) (stdin : Option Nat) (a : LoopAcc)
    (e : Event) : (register_event now stdin a e).writes = a.writes := by
  cases e with
  | started sid t =>
      dsimp only [register_event]
      cases a.registeredSessionId <;> cases stdin <;> rfl
  | action i k t p ok rid => rfl
  | completed ok ans r err => rfl

theorem register_foldl_s (now : Int) (stdin : Option Nat) (es : List Event)
    (a : LoopAcc) : (es.foldl (register_event now stdin) a).s = a.s := by
  induction es generalizing a with
  | nil => rfl
  | cons e rest ih => rw [List.foldl_cons, ih, register_event_s]

theorem register_foldl_writes (now : Int) (stdin : Option Nat)
    (es : List Event) (a : LoopAcc) :
    (es.foldl (register_event now stdin) a).writes = a.writes := by
  induction es generalizing a with
  | nil => rfl
  | cons e rest ih => rw [List.foldl_cons, ih, register_event_writes]

/-- C3: after processing any completed stdout line, the auto-approve and
auto-deny queues have been drained to the captured stdin — one allow line per
queued request, one deny line per queued pair, in order — and both queues are
empty before the next line is read, even when the line yielded zero canonical
events. -/
theorem queues_drained_every_line (now : Int) (title : String) (h : Nat)
    (procStdin ptyFd : Option Nat) (acc : LoopAcc) (msg : StreamMessage) :
    (process_line now title (some h) procStdin ptyFd acc msg).s.autoApproveQueue
        = []
    ∧ (process_line now title (some h) procStdin ptyFd acc msg).s.autoDenyQueue
        = []
    ∧ (process_line now title (some h) procStdin ptyFd acc msg).writes =
        acc.writes
          ++ (translate_claude_event now title msg acc.s
              acc.g).1.autoApproveQueue.map (auto_approve_write h)
          ++ (translate_claude_event now title msg acc.s
              acc.g).1.autoDenyQueue.map (auto_deny_write h) := by
  unfold process_line drain_auto_approve drain_auto_deny
  dsimp only
  rw [register_foldl_s, register_foldl_writes]
  exact ⟨rfl, rfl, rfl⟩

/-- C2 (amended): after a CompletedEvent synthesised on non-zero exit
(`process_error_events`) or at stream end (`stream_end_events`), the
registries hold no entry for the session id.  When the CompletedEvent comes
from the result line of the agent itself, `run_impl` returns without this cleanup and
the entries persist (see the counterexample theorem). -/
theorem registries_cleared_on_synthesised_completion (rc : Int)
    (resume foundSession : Option String) (sid : String)
    (stderrLines : List String) (s : ClaudeStreamState) (g : Globals)
    (hsid : foundSession = some sid ∨ (foundSession = none ∧ resume = some sid)) :
    (lookupA sid (process_error_events rc resume foundSession stderrLines s
        g).1.activeRunners = none
      ∧ lookupA sid (process_error_events rc resume foundSession stderrLines s
        g).1.sessionStdin = none
      ∧ (process_error_events rc resume foundSession stderrLines s g).2.any
          Event.isCompleted = true)
    ∧ (lookupA sid (stream_end_events resume foundSession s g).1.activeRunners
        = none
      ∧ lookupA sid (stream_end_events resume foundSession s g).1.sessionStdin
        = none
      ∧ (stream_end_events resume foundSession s g).2.any Event.isCompleted
        = true) := by
  rcases hsid with h | ⟨h₁, h₂⟩
  · subst h
    refine ⟨⟨?_, ?_, ?_⟩, ?_, ?_, ?_⟩ <;>
      simp [process_error_events, stream_end_events, clear_discuss_cooldown,
        note_event, completed_error, Event.isCompleted]
  · subst h₁; subst h₂
    refine ⟨⟨?_, ?_, ?_⟩, ?_, ?_, ?_⟩ <;>
      simp [process_error_events, stream_end_events, clear_discuss_cooldown,
        note_event, completed_error, Event.isCompleted]

/-- Witness for C2 (amended) at a concrete captured session. -/
theorem registries_cleared_on_synthesised_completion_witness :
    lookupA "S" (stream_end_events none (some "S") (new_state false none)
      { Globals.empty with activeRunners := [("S", 0)],
                           sessionStdin := [("S", 7)] }).1.activeRunners = none
    ∧ lookupA "S" (stream_end_events none (some "S") (new_state false none)
      { Globals.empty with activeRunners := [("S", 0)],
                           sessionStdin := [("S", 7)] }).1.sessionStdin = none := by
  have h := registries_cleared_on_synthesised_completion 1 none (some "S") "S"
    [] (new_state false none)
    { Globals.empty with activeRunners := [("S", 0)], sessionStdin := [("S", 7)] }
    (Or.inl rfl)
  exact ⟨h.2.1, h.2.2.1⟩

/-- C2 counterexample: when the CompletedEvent comes from the result line of
the agent itself, the run returns with both registries still holding the
session. -/
theorem registries_persist_after_result_line :
    ((run_session 0 "claude" false none 7 result_line_lines 0 []
        Globals.empty).2.1.any Event.isCompleted) = true
    ∧ lookupA "S" (run_session 0 "claude" false none 7 result_line_lines 0 []
        Globals.empty).1.activeRunners = some 0
    ∧ lookupA "S" (run_session 0 "claude" false none 7 result_line_lines 0 []
        Globals.empty).1.sessionStdin = some 7 := by
  exact ⟨rfl, rfl, rfl⟩

/-- C6 (amended): clean exit (rc = 0) after stdout EOF with a captured
session id and no CompletedEvent emitted synthesises exactly one
CompletedEvent carrying the last assistant text as answer and the found
session as resume token (preferred over the initial resume) — but with
ok = false and the no-result error, not ok = true. -/
theorem stream_end_with_session_completion (resume : Option String)
    (fsid : String) (stderrLines : List String) (s : ClaudeStreamState)
    (g : Globals) :
    (run_end false 0 resume (some fsid) stderrLines s g).2 =
      [completed_error
        (String.intercalate "\n" ([NO_RESULT_MESSAGE] ++
          optToList ((session_label (some fsid) resume).map
            (fun sid => "session: " ++ sid))))
        (s.lastAssistantText.getD "") (some fsid)] := rfl

/-- C6 counterexample: at a concrete stream-end state the synthesised
CompletedEvent has ok = false, not ok = true as claimed. -/
theorem stream_end_completion_not_ok :
    ((stream_end_events (some "R0") (some "S")
        { lastAssistantText := some "hi" } Globals.empty).2.filterMap
      completedOk) = [false] := by
  decide

/-- C9 (amended): stream end without a captured session id synthesises a
CompletedEvent with ok = false and the no-session-id error; the event carries
no resume token when the run was started fresh, but carries the initial
resume token when the run was started with one. -/
theorem stream_end_no_session (resume : Option String) (s : ClaudeStreamState)
    (g : Globals) :
    (stream_end_events resume none s g).2 =
      [completed_error
        (String.intercalate "\n" ([NO_SESSION_MESSAGE] ++
          optToList ((session_label none resume).map
            (fun sid => "session: " ++ sid))))
        "" resume] := rfl

/-- C9 counterexample: a run started with an initial resume token that ends
without a captured session id returns that token on the synthesised
CompletedEvent, not no token. -/
theorem stream_end_no_session_keeps_resume :
    ((stream_end_events (some "R0") none (new_state false (some "R0"))
        Globals.empty).2.filterMap completedResume) = [some "R0"] := by
  decide

theorem write_control_response_payloads (rid : String) (ap : Bool)
    (dm : Option String) (fb : Nat) (pty : Option Nat) (g : Globals) :
    (write_control_response rid ap dm (some fb) pty g).2.map
        (fun w => w.payload) =
      [control_response_payload rid (write_inner rid ap dm g)] := by
  unfold write_control_response
  dsimp only
  cases hs : lookupA rid g.requestToSession with
  | none => rfl
  | some sid => cases hss : lookupA sid g.sessionStdin <;> simp [Option.bind, hss]

theorem write_control_response_requestToSession (rid : String) (ap : Bool)
    (dm : Option String) (ps pty : Option Nat) (g : Globals) :
    (write_control_response rid ap dm ps pty g).1.requestToSession =
      g.requestToSession := by
  unfold write_control_response
  dsimp only
  cases ap
  · rfl
  · cases hin : lookupA rid g.requestToInput <;> rfl

theorem write_control_response_handledRequests (rid : String) (ap : Bool)
    (dm : Option String) (ps pty : Option Nat) (g : Globals) :
    (write_control_response rid ap dm ps pty g).1.handledRequests =
      g.handledRequests := by
  unfold write_control_response
  dsimp only
  cases ap
  · rfl
  · cases hin : lookupA rid g.requestToInput <;> rfl

theorem write_control_response_pops_input (rid : String) (dm : Option String)
    (ps pty : Option Nat) (g : Globals) (v : Json)
    (hin : lookupA rid g.requestToInput = some v) :
    lookupA rid (write_control_response rid true dm ps pty
      g).1.requestToInput = none := by
  unfold write_control_response
  dsimp only
  rw [hin]
  exact lookupA_eraseA_self rid g.requestToInput

/-- C5 (amended): an approve written by `write_control_response` carries the
inner payload `{"behavior":"allow","updatedInput":<original input>}` with the
input popped from RequestToInput; an auto-approved request — the Bash
scenario — is instead drained with the bare inner `{"behavior":"allow"}`
(no `updatedInput`), and no warning event is yielded. -/
theorem approve_response_payloads (rid : String) (v : Json) (dm : Option String)
    (fb : Nat) (pty : Option Nat) (g : Globals)
    (hin : lookupA rid g.requestToInput = some v) :
    ((write_control_response rid true dm (some fb) pty g).2.map
        (fun w => w.payload) =
      [control_response_payload rid
        (Json.objOf [("behavior", Json.str "allow"), ("updatedInput", v)])]
      ∧ lookupA rid (write_control_response rid true dm (some fb) pty
          g).1.requestToInput = none)
    ∧ ((run_session 0 "claude" false none 7 scenario_bash_lines 0 []
          Globals.empty).2.2 = [auto_approve_write 7 "R"]
      ∧ (run_session 0 "claude" false none 7 scenario_bash_lines 0 []
          Globals.empty).2.1.any Event.isWarning = false) := by
  refine ⟨⟨?_, ?_⟩, ?_, ?_⟩
  · rw [write_control_response_payloads]
    simp [write_inner, hin]
  · exact write_control_response_pops_input rid dm (some fb) pty g v hin
  · rfl
  · rfl

/-- Witness for C5 (amended) at a concrete stored tool input. -/
theorem approve_response_payloads_witness :
    (write_control_response "Q" true none (some 7) none
      { Globals.empty with requestToInput := [("Q", bash_input)] }).2.map
        (fun w => w.payload) =
      [control_response_payload "Q"
        (Json.objOf [("behavior", Json.str "allow"),
                     ("updatedInput", bash_input)])] := by
  have h := approve_response_payloads "Q" bash_input none 7 none
    { Globals.empty with requestToInput := [("Q", bash_input)] } rfl
  exact h.1.1

/-- C5 counterexample: in the Bash scenario the line actually written to
stdin is the bare allow payload, which differs from the claimed
allow-plus-updatedInput payload. -/
theorem auto_approve_write_lacks_updated_input :
    (run_session 0 "claude" false none 7 scenario_bash_lines 0 []
        Globals.empty).2.2 = [auto_approve_write 7 "R"]
    ∧ auto_approve_write 7 "R" ≠
      ⟨7, control_response_payload "R"
        (Json.objOf [("behavior", Json.str "allow"),
                     ("updatedInput", bash_input)])⟩ := by
  exact ⟨rfl, by decide⟩

/-- C7 (amended): approving a registered, active request and then calling
again with the same request id writes to stdin exactly once and both calls
report success — provided HandledRequests holds at most 99 ids before the
first call; at the 100-cap the clear wipes the duplicate marker and the second
call reports failure (see the counterexample theorem). -/
theorem duplicate_control_response_reports_success (rid sid : String)
    (ts : Int) (h : Nat) (dm : Option String) (fb pty : Option Nat)
    (g : Globals)
    (h₁ : lookupA rid g.requestToSession = some sid)
    (h₂ : lookupA sid g.activeRunners = some ts)
    (h₃ : lookupA sid g.sessionStdin = some h)
    (h₄ : g.handledRequests.length ≤ 99) :
    (send_claude_control_response rid true dm fb pty g).1 = true
    ∧ (send_claude_control_response rid true dm fb pty g).2.2.length = 1
    ∧ (send_claude_control_response rid true dm fb pty
        (send_claude_control_response rid true dm fb pty g).2.1).1 = true
    ∧ (send_claude_control_response rid true dm fb pty
        (send_claude_control_response rid true dm fb pty g).2.1).2.2 = [] := by
  have hwr₂ : (write_control_response rid true dm fb pty g).2.length = 1 := by
    unfold write_control_response
    dsimp only
    rw [h₁]
    dsimp only [Option.bind]
    rw [h₃]
    rfl
  have hcap : ¬ (insertS rid
      (write_control_response rid true dm fb pty g).1.handledRequests).length
        > 100 := by
    rw [write_control_response_handledRequests]
    have := insertS_length_le rid g.handledRequests
    omega
  have hfirst : send_claude_control_response rid true dm fb pty g =
      (true,
       { (write_control_response rid true dm fb pty g).1 with
          requestToSession := eraseA rid
            (write_control_response rid true dm fb pty g).1.requestToSession,
          handledRequests := insertS rid
            (write_control_response rid true dm fb pty g).1.handledRequests },
       (write_control_response rid true dm fb pty g).2) := by
    unfold send_claude_control_response
    rw [h₁]
    dsimp only
    rw [h₂]
    dsimp only
    rw [if_neg hcap]
  refine ⟨by rw [hfirst], by rw [hfirst]; exact hwr₂, ?_, ?_⟩
  · rw [hfirst]
    unfold send_claude_control_response
    dsimp only
    rw [write_control_response_requestToSession, lookupA_eraseA_self,
      write_control_response_handledRequests]
    simp [insertS_mem]
  · rw [hfirst]
    unfold send_claude_control_response
    dsimp only
    rw [write_control_response_requestToSession, lookupA_eraseA_self,
      write_control_response_handledRequests]
    simp [insertS_mem]

/-- Witness for C7 (amended) at a concrete registered request. -/
theorem duplicate_control_response_reports_success_witness :
    (send_claude_control_response "R" true none none none
      { Globals.empty with requestToSession := [("R", "S")],
                           activeRunners := [("S", 0)],
                           sessionStdin := [("S", 7)] }).1 = true
    ∧ (send_claude_control_response "R" true none none none
        (send_claude_control_response "R" true none none none
          { Globals.empty with requestToSession := [("R", "S")],
                               activeRunners := [("S", 0)],
                               sessionStdin := [("S", 7)] }).2.1).1 = true := by
  have h := duplicate_control_response_reports_success "R" "S" 0 7 none none
    none
    { Globals.empty with requestToSession := [("R", "S")],
                         activeRunners := [("S", 0)],
                         sessionStdin := [("S", 7)] }
    rfl rfl rfl (by decide)
  exact ⟨h.1, h.2.2.1⟩

/-- C7 counterexample: with HandledRequests already holding 100 ids, the
first approve succeeds but triggers the cap clear, so the duplicate call
reports failure instead of success. -/
theorem duplicate_after_cap_clear_fails :
    (send_claude_control_response "R" true none none none g_full).1 = true
    ∧ (send_claude_control_response "R" true none none none
        (send_claude_control_response "R" true none none none
          g_full).2.1).1 = false := by
  exact ⟨rfl, rfl⟩

end Untether
